import Mathlib

/-
Verification of the gravix-ocr request-handling core.

The embedding models the two pieces of the core as found in the route
handler source file:

  processImageForOCR : the image preprocessor built on the sharp library
                       (metadata read, grayscale/normalize/resize/sharpen/
                       gamma pipeline, PNG re-encode, try/catch fallback)
  POST               : the request handler (credential check, file check,
                       preprocessing, data-URL construction, single upstream
                       chat-completion call, response extraction, error
                       classification)

plus the client-side file gate processFile from the page component.

The sharp imaging library itself is external code; it is modelled by a
SharpModel record giving the outcome of the metadata read and of rendering
the configured pipeline to a PNG buffer.  Buffers carry an abstract tag for
the encoding of their bytes so that statements about "the bytes are PNG"
can be made.  Everything the repository computes (dimension arithmetic,
truthiness checks, string matching, ordering of checks, fallbacks) is
embedded directly from the source.
-/

set_option autoImplicit false

namespace GravixOcr

/-- Abstract tag for the actual encoding of a byte buffer. -/
inductive ImgFormat where
  | png
  | jpeg
  | webp
  | other
deriving DecidableEq, Repr

/-- A byte buffer (Node Buffer): raw bytes plus the abstract tag recording
which image encoding the bytes are in. -/
structure Buffer where
  format : ImgFormat
  data : List Nat
deriving DecidableEq, Repr

/-- Result of sharp(imageBuffer).metadata(): width, height and format are
all optional in the library's typing. -/
structure Metadata where
  width : Option Nat
  height : Option Nat
  format : Option String
deriving DecidableEq, Repr

/-- JavaScript Math.round on a rational: floor of x + 1/2 (round half up,
which is Math.round's behaviour for the positive values occurring here). -/
def jsRound (q : ℚ) : ℤ := ⌊q + 1 / 2⌋

/-- The resize instruction the preprocessor passes to the library:
either no resize call, or a resize to the given target width and height. -/
inductive ResizeSpec where
  | none
  | to (width height : Nat)
deriving DecidableEq, Repr

/-- The dimension logic of processImageForOCR step 3: if width and height
are both known (and nonzero, JavaScript truthiness) and the longer side is
under 1000, request a resize to Math.round(width * 1000 / max) by
Math.round(height * 1000 / max); otherwise no resize is requested. -/
def resizeDecision : Option Nat → Option Nat → ResizeSpec
  | some w, some h =>
      if w = 0 ∨ h = 0 then ResizeSpec.none
      else if max w h < 1000 then
        ResizeSpec.to (jsRound ((w : ℚ) * (1000 / ((max w h : ℕ) : ℚ)))).toNat
          (jsRound ((h : ℚ) * (1000 / ((max w h : ℕ) : ℚ)))).toNat
      else ResizeSpec.none
  | _, _ => ResizeSpec.none

/-- Model of the sharp imaging library as used by the preprocessor: the
metadata read may fail; rendering the configured pipeline (grayscale,
normalize, optional resize, sharpen, gamma 1.2, PNG encode) to a buffer may
fail; when rendering succeeds the produced bytes are PNG-encoded, which is
the contract of the png() encoder the pipeline ends in. -/
structure SharpModel where
  metadata : Buffer → Except String Metadata
  renderPng : Buffer → ResizeSpec → Except String Buffer
  renderPng_png : ∀ b r out, renderPng b r = Except.ok out →
    out.format = ImgFormat.png

/-- processImageForOCR: read metadata, build the filter pipeline with the
resize decision computed from the metadata, render to a PNG buffer; any
failure is caught and the original input buffer is returned unchanged. -/
def processImageForOCR (sharp : SharpModel) (imageBuffer : Buffer) : Buffer :=
  match sharp.metadata imageBuffer with
  | Except.error _ => imageBuffer
  | Except.ok metadata =>
      match sharp.renderPng imageBuffer
          (resizeDecision metadata.width metadata.height) with
      | Except.error _ => imageBuffer
      | Except.ok processedBuffer => processedBuffer

/-- Some preprocessing step failed: either the metadata read, or rendering
the pipeline configured from the metadata that was read. -/
def stepFailure (sharp : SharpModel) (b : Buffer) : Prop :=
  (∃ e, sharp.metadata b = Except.error e) ∨
  (∃ meta e, sharp.metadata b = Except.ok meta ∧
    sharp.renderPng b (resizeDecision meta.width meta.height) =
      Except.error e)

/-- A sharp model on which every operation fails (a corrupt or
undecodable input). -/
def sharpCrash : SharpModel where
  metadata := fun _ => Except.error "Input buffer contains unsupported image format"
  renderPng := fun _ _ => Except.error "Input buffer contains unsupported image format"
  renderPng_png := fun _ _ _ h => Except.noConfusion h

/-- A sharp model on which everything succeeds: the metadata read reports
the given dimensions, and rendering returns a PNG buffer with the same
byte payload. -/
def sharpOk (w h : Nat) : SharpModel where
  metadata := fun _ => Except.ok ⟨some w, some h, some "png"⟩
  renderPng := fun b _ => Except.ok ⟨ImgFormat.png, b.data⟩
  renderPng_png := fun _ _ _ hout => by
    cases hout
    rfl

/-! ### String matching (JavaScript startsWith and includes) -/

/-- List-level test that the first list begins with the second. -/
def charsBeginWith : List Char → List Char → Bool
  | _, [] => true
  | [], _ :: _ => false
  | a :: s, b :: p => a == b && charsBeginWith s p

/-- List-level substring occurrence test. -/
def charsContain : List Char → List Char → Bool
  | [], needle => needle.isEmpty
  | a :: s, needle => charsBeginWith (a :: s) needle || charsContain s needle

/-- JavaScript String.startsWith. -/
def strBeginsWith (s p : String) : Bool := charsBeginWith s.toList p.toList

/-- JavaScript String.includes, used by the outer catch block to classify
error messages. -/
def strIncludes (s sub : String) : Bool := charsContain s.toList sub.toList

/-! ### Request, upstream response and response types -/

/-- The file obtained from formData.get("image"): declared name, declared
MIME type, declared size in bytes, and the raw bytes. -/
structure ApiFile where
  name : String
  mimeType : String
  size : Nat
  bytes : Buffer
deriving DecidableEq, Repr

/-- The environment one request sees: the GRAVIXLAYER_API_KEY environment
variable (a string or undefined) and the file attached to the form data
(a File or null). -/
structure RequestEnv where
  apiKey : Option String
  file : Option ApiFile
deriving DecidableEq, Repr

/-- JavaScript truthiness test !x for a string-or-undefined value: true
when the variable is undefined or the empty string. -/
def jsFalsyStr : Option String → Bool
  | none => true
  | some s => s == ""

/-- The message object of a chat-completion choice; content is
string-or-null in the API typing. -/
structure UpstreamMessage where
  content : Option String
deriving DecidableEq, Repr

/-- One choice of a chat-completion response; the handler checks the
message object itself for presence. -/
structure UpstreamChoice where
  message : Option UpstreamMessage
deriving DecidableEq, Repr

/-- A chat-completion response; the handler also guards against the
choices field itself being absent. -/
structure Completion where
  choices : Option (List UpstreamChoice)
deriving DecidableEq, Repr

/-- Outcome of the single openai.chat.completions.create call: a response
object (possibly null, the handler guards for it), an OpenAI.APIError with
optional HTTP status, some other thrown Error, or a thrown non-Error
value. -/
inductive UpstreamOutcome where
  | success (completion : Option Completion)
  | apiError (status : Option Nat) (message : String)
  | genericError (message : String)
  | unknownThrow
deriving DecidableEq, Repr

/-- What the route returns to the client: a JSON body that is either
a text payload with HTTP 200 or an error payload with the given status. -/
inductive OcrResponse where
  | ok (text : String)
  | err (error : String) (status : Nat)
deriving DecidableEq, Repr

/-- Observable effects of one request on the upstream API: how many
chat-completion calls were made, and the declared MIME type and image
buffer embedded in the data URL of the call when one was made. -/
structure UpstreamTrace where
  calls : Nat
  sent : Option (String × Buffer)
deriving DecidableEq, Repr

/-- The OpenAI client value built per request. -/
structure OpenAIClient where
  apiKey : String
  baseURL : String
deriving DecidableEq, Repr

/-- createOpenAIClient: reads the key and throws when it is falsy, else
returns a client pinned to the fixed base URL. -/
def createOpenAIClient (apiKey : Option String) : Except String OpenAIClient :=
  if jsFalsyStr apiKey then
    Except.error "GRAVIXLAYER_API_KEY environment variable is required"
  else
    Except.ok ⟨apiKey.getD "", "https://api.gravixlayer.com/v1"⟩

/-- The status interpolation of the rethrown APIError message:
apiCallError.status || "unknown" (0 is falsy in JavaScript). -/
def apiStatusText : Option Nat → String
  | none => "unknown"
  | some 0 => "unknown"
  | some n => toString n

/-- The message of the Error rethrown by the inner catch block around the
upstream call, per the instanceof classification in the source. -/
def rethrownMessage : UpstreamOutcome → String
  | UpstreamOutcome.apiError status msg =>
      "Gravix Layer API error (" ++ apiStatusText status ++ "): " ++ msg
  | UpstreamOutcome.genericError msg =>
      "Network or SDK error during API call: " ++ msg
  | _ => "An unexpected error occurred during the API call."

/-- The outer catch block: map a caught Error message to the client
response by substring tests, in source order. -/
def classifyCaught (msg : String) : OcrResponse :=
  if strIncludes msg "GRAVIXLAYER_API_KEY" then
    OcrResponse.err "GRAVIXLAYER_API_KEY environment variable is not set" 500
  else if strIncludes msg "Invalid API key" then
    OcrResponse.err "Invalid API key" 401
  else if strIncludes msg "Rate limit exceeded" then
    OcrResponse.err "Rate limit exceeded" 429
  else
    OcrResponse.err ("Internal server error: " ++ msg) 500

/-- The literal fallback text substituted for falsy message content. -/
def noTextFallback : String := "No text could be extracted from the image"

/-- Response extraction: the structural guard on the completion (null
completion, null choices, empty choices, or missing message object on the
first choice) yields the malformed-response 500; otherwise the content is
taken with the fallback substituted when content is null or empty. -/
def extractResponse (completion : Option Completion) : OcrResponse :=
  match completion with
  | none => OcrResponse.err "Unexpected response structure from Gravix Layer API" 500
  | some c =>
      match c.choices with
      | none => OcrResponse.err "Unexpected response structure from Gravix Layer API" 500
      | some [] => OcrResponse.err "Unexpected response structure from Gravix Layer API" 500
      | some (choice :: _) =>
          match choice.message with
          | none => OcrResponse.err "Unexpected response structure from Gravix Layer API" 500
          | some message =>
              match message.content with
              | none => OcrResponse.ok noTextFallback
              | some s => if s = "" then OcrResponse.ok noTextFallback else OcrResponse.ok s

/-- POST: the route handler.  Checks the credential, then the file, then
preprocesses the image, builds the data URL with the hard-coded image/png
MIME type, makes the single upstream call (its outcome supplied by the
upstream parameter), and produces the client response.  The trace records
the number of upstream calls and the payload handed to the gateway. -/
def POST (sharp : SharpModel) (env : RequestEnv) (upstream : UpstreamOutcome) :
    OcrResponse × UpstreamTrace :=
  if jsFalsyStr env.apiKey then
    (OcrResponse.err "GRAVIXLAYER_API_KEY environment variable is not set" 500,
      ⟨0, none⟩)
  else
    match env.file with
    | none => (OcrResponse.err "No image file provided" 400, ⟨0, none⟩)
    | some image =>
        let originalBuffer := image.bytes
        let processedBuffer := processImageForOCR sharp originalBuffer
        let mimeType := "image/png"
        match createOpenAIClient env.apiKey with
        | Except.error e =>
            (classifyCaught ("Network or SDK error during API call: " ++ e),
              ⟨0, none⟩)
        | Except.ok _ =>
            let trace : UpstreamTrace := ⟨1, some (mimeType, processedBuffer)⟩
            match upstream with
            | UpstreamOutcome.success completion =>
                (extractResponse completion, trace)
            | outcome => (classifyCaught (rethrownMessage outcome), trace)

/-! ### Client-side file gate (processFile in the page component) -/

/-- What the client does with a picked file before any request is made. -/
inductive ClientAction where
  | reject (message : String)
  | send
deriving DecidableEq, Repr

/-- processFile: accept the file and start the OCR request only when its
MIME type starts with image/ and its size is not over 10 MiB; otherwise
set an error message and send nothing. -/
def processFile (fileType : String) (fileSize : Nat) : ClientAction :=
  if strBeginsWith fileType "image/" then
    if fileSize > 10 * 1024 * 1024 then ClientAction.reject "File must be under 10MB"
    else ClientAction.send
  else ClientAction.reject "Please select an image file"

theorem processImageForOCR_of_stepFailure (sharp : SharpModel) (b : Buffer)
    (hfail : stepFailure sharp b) : processImageForOCR sharp b = b := by
  rcases hfail with ⟨e, he⟩ | ⟨meta, e, hm, hr⟩
  · simp [processImageForOCR, he]
  · simp [processImageForOCR, hm, hr]

theorem processImageForOCR_of_render (sharp : SharpModel) (b : Buffer)
    (meta : Metadata) (out : Buffer)
    (hm : sharp.metadata b = Except.ok meta)
    (hr : sharp.renderPng b (resizeDecision meta.width meta.height) =
      Except.ok out) :
    processImageForOCR sharp b = out := by
  simp [processImageForOCR, hm, hr]

/-! ### Facts about jsRound -/

theorem jsRound_natCast (n : Nat) : jsRound (n : ℚ) = n := by
  rw [jsRound, show ((n : ℚ) + 1 / 2) = (n : ℚ) + 1 / 2 from rfl,
    Int.floor_nat_add]
  norm_num

theorem jsRound_mono {q r : ℚ} (h : q ≤ r) : jsRound q ≤ jsRound r :=
  Int.floor_mono (by linarith)

theorem jsRound_nonneg {q : ℚ} (h : 0 ≤ q) : 0 ≤ jsRound q :=
  Int.floor_nonneg.mpr (by linarith)

theorem abs_jsRound_sub_le (q : ℚ) : |(jsRound q : ℚ) - q| ≤ 1 / 2 := by
  have h1 : (jsRound q : ℚ) ≤ q + 1 / 2 := Int.floor_le (q + 1 / 2)
  have h2 : q + 1 / 2 < (jsRound q : ℚ) + 1 := Int.lt_floor_add_one (q + 1 / 2)
  rw [abs_le]
  constructor <;> linarith

/-! ### Reduction lemmas for POST -/

theorem POST_key_missing (sharp : SharpModel) (env : RequestEnv)
    (upstream : UpstreamOutcome) (hkey : jsFalsyStr env.apiKey = true) :
    POST sharp env upstream =
      (OcrResponse.err "GRAVIXLAYER_API_KEY environment variable is not set" 500,
        ⟨0, none⟩) := by
  unfold POST
  rw [hkey]
  simp

theorem POST_no_file (sharp : SharpModel) (env : RequestEnv)
    (upstream : UpstreamOutcome) (hkey : jsFalsyStr env.apiKey = false)
    (hfile : env.file = none) :
    POST sharp env upstream =
      (OcrResponse.err "No image file provided" 400, ⟨0, none⟩) := by
  unfold POST
  rw [hkey, hfile]
  simp

theorem POST_with_file (sharp : SharpModel) (env : RequestEnv) (f : ApiFile)
    (upstream : UpstreamOutcome) (hkey : jsFalsyStr env.apiKey = false)
    (hf : env.file = some f) :
    POST sharp env upstream =
      ((match upstream with
        | UpstreamOutcome.success completion => extractResponse completion
        | outcome => classifyCaught (rethrownMessage outcome)),
        ⟨1, some ("image/png", processImageForOCR sharp f.bytes)⟩) := by
  unfold POST
  rw [hkey, hf]
  rw [createOpenAIClient, hkey]
  cases upstream <;> simp

theorem POST_success (sharp : SharpModel) (env : RequestEnv) (f : ApiFile)
    (completion : Option Completion) (hkey : jsFalsyStr env.apiKey = false)
    (hf : env.file = some f) :
    POST sharp env (UpstreamOutcome.success completion) =
      (extractResponse completion,
        ⟨1, some ("image/png", processImageForOCR sharp f.bytes)⟩) := by
  rw [POST_with_file sharp env f (UpstreamOutcome.success completion) hkey hf]

theorem extractResponse_ok_ne_empty (completion : Option Completion)
    (text : String) (h : extractResponse completion = OcrResponse.ok text) :
    text ≠ "" := by
  rcases completion with _ | ⟨_ | ⟨_ | ⟨choice, rest⟩⟩⟩ <;>
    simp [extractResponse] at h
  rcases choice with ⟨_ | ⟨_ | content⟩⟩ <;>
    simp [extractResponse] at h
  · rw [← h]
    simp [noTextFallback]
  · by_cases hc : content = ""
    · rw [if_pos hc] at h
      cases h
      simp [noTextFallback]
    · rw [if_neg hc] at h
      cases h
      exact hc

/-! ### Concrete request scenarios used by witnesses and counterexamples -/

/-- A small well-formed PNG upload. -/
def fileOk : ApiFile := ⟨"scan.png", "image/png", 4, ⟨ImgFormat.png, [137, 80, 78, 71]⟩⟩

/-- A request with the credential configured and fileOk attached. -/
def envOk : RequestEnv := ⟨some "sk-test", some fileOk⟩

/-- An upload that is both over the 10 MiB bound and not an image type. -/
def oversizedPdf : ApiFile :=
  ⟨"doc.pdf", "application/pdf", 10 * 1024 * 1024 + 1, ⟨ImgFormat.other, [37, 80, 68, 70]⟩⟩

/-- A request carrying the oversized non-image file. -/
def envOversized : RequestEnv := ⟨some "sk-test", some oversizedPdf⟩

/-- A JPEG upload whose bytes the crashing sharp model cannot decode. -/
def jpegFile : ApiFile := ⟨"photo.jpg", "image/jpeg", 3, ⟨ImgFormat.jpeg, [255, 216, 255]⟩⟩

/-- A request carrying the JPEG upload. -/
def envJpeg : RequestEnv := ⟨some "sk-test", some jpegFile⟩

/-- An upstream response whose single choice carries the given content. -/
def respWith (content : Option String) : UpstreamOutcome :=
  UpstreamOutcome.success (some ⟨some [⟨some ⟨content⟩⟩]⟩)

/-- Sanity evaluation: an upstream authentication failure is classified to
the 401 answer, and an upstream rate-limit failure to the 429 answer. -/
theorem upstream_error_classification :
    POST sharpCrash envOk (UpstreamOutcome.apiError (some 401) "Invalid API key") =
      (OcrResponse.err "Invalid API key" 401, ⟨1, some ("image/png", fileOk.bytes)⟩) ∧
    POST sharpCrash envOk (UpstreamOutcome.apiError (some 429) "Rate limit exceeded") =
      (OcrResponse.err "Rate limit exceeded" 429, ⟨1, some ("image/png", fileOk.bytes)⟩) := by
  decide

/-- Sanity evaluation: the client file gate takes any MIME type under
image/, including subtypes outside png, jpeg and webp. -/
theorem processFile_takes_any_image_subtype :
    processFile "image/gif" 5 = ClientAction.send ∧
    processFile "application/pdf" 5 = ClientAction.reject "Please select an image file" ∧
    processFile "image/png" (10 * 1024 * 1024 + 1) =
      ClientAction.reject "File must be under 10MB" := by
  decide

/-! ### Claims -/

/-- C1: the preprocessor is a total function of the input buffer (it cannot
throw to its caller), and whenever any preprocessing step fails — the
metadata read or rendering the filter pipeline — it returns the original
input buffer bytes unmodified rather than surfacing an error. -/
theorem preprocessing_failure_returns_original_buffer (sharp : SharpModel)
    (b : Buffer) (hfail : stepFailure sharp b) :
    processImageForOCR sharp b = b :=
  processImageForOCR_of_stepFailure sharp b hfail

theorem preprocessing_failure_returns_original_buffer_witness :
    stepFailure sharpCrash jpegFile.bytes ∧
    processImageForOCR sharpCrash jpegFile.bytes = jpegFile.bytes :=
  ⟨Or.inl ⟨"Input buffer contains unsupported image format", rfl⟩,
    preprocessing_failure_returns_original_buffer sharpCrash jpegFile.bytes
      (Or.inl ⟨"Input buffer contains unsupported image format", rfl⟩)⟩

/-- C2 counterexample: an upstream response whose first choice has a
message object but a missing (null) content field is answered with a
success carrying the fallback text, not with the malformed-upstream error
the claim requires. -/
theorem missing_content_yields_success_not_error :
    (POST sharpCrash envOk (respWith none)).1 = OcrResponse.ok noTextFallback := by
  decide

/-- C2 amended: an upstream response with an empty choices collection (and
likewise a null completion, null choices field, or first choice without a
message object, per the guard) is answered with the malformed-response
error and a 500 status; a first choice whose message object is present but
whose content field is missing is answered with a success carrying the
fallback text; and no success ever carries the empty string. -/
theorem empty_choices_error_missing_content_fallback (sharp : SharpModel)
    (env : RequestEnv) (f : ApiFile) (completion : Option Completion)
    (hkey : jsFalsyStr env.apiKey = false) (hf : env.file = some f) :
    (completion = some ⟨some []⟩ →
      (POST sharp env (UpstreamOutcome.success completion)).1 =
        OcrResponse.err "Unexpected response structure from Gravix Layer API" 500) ∧
    (∀ rest, completion = some ⟨some (⟨some ⟨none⟩⟩ :: rest)⟩ →
      (POST sharp env (UpstreamOutcome.success completion)).1 =
        OcrResponse.ok noTextFallback) ∧
    (∀ text, (POST sharp env (UpstreamOutcome.success completion)).1 =
        OcrResponse.ok text → text ≠ "") := by
  rw [POST_success sharp env f completion hkey hf]
  refine ⟨?_, ?_, ?_⟩
  · rintro rfl
    rfl
  · rintro rest rfl
    rfl
  · intro text htext
    exact extractResponse_ok_ne_empty completion text htext

theorem empty_choices_error_missing_content_fallback_witness :
    (POST sharpCrash envOk (UpstreamOutcome.success (some ⟨some []⟩))).1 =
      OcrResponse.err "Unexpected response structure from Gravix Layer API" 500 :=
  (empty_choices_error_missing_content_fallback sharpCrash envOk fileOk
    (some ⟨some []⟩) (by decide) rfl).1 rfl

/-- C3: when the first choice carries a present content field, an empty
content string is answered with a success whose text is the literal
fallback string, and a non-empty content string is answered with a success
whose text is exactly that content. -/
theorem empty_content_fallback_text (sharp : SharpModel) (env : RequestEnv)
    (f : ApiFile) (content : String) (rest : List UpstreamChoice)
    (hkey : jsFalsyStr env.apiKey = false) (hf : env.file = some f) :
    (content = "" →
      (POST sharp env (UpstreamOutcome.success
          (some ⟨some (⟨some ⟨some content⟩⟩ :: rest)⟩))).1 =
        OcrResponse.ok "No text could be extracted from the image") ∧
    (content ≠ "" →
      (POST sharp env (UpstreamOutcome.success
          (some ⟨some (⟨some ⟨some content⟩⟩ :: rest)⟩))).1 =
        OcrResponse.ok content) := by
  rw [POST_success sharp env f (some ⟨some (⟨some ⟨some content⟩⟩ :: rest)⟩) hkey hf]
  constructor
  · rintro rfl
    rfl
  · intro hne
    simp [extractResponse, hne]

theorem empty_content_fallback_text_witness :
    (POST sharpCrash envOk (respWith (some ""))).1 =
      OcrResponse.ok "No text could be extracted from the image" :=
  (empty_content_fallback_text sharpCrash envOk fileOk "" [] (by decide) rfl).1 rfl

/-- C5: when the credential environment variable is unset (or empty, the
same falsy check), the handler answers immediately with the
missing-credential error and a 500 status, and the trace shows no upstream
call and no payload sent. -/
theorem missing_credential_fails_fast (sharp : SharpModel) (env : RequestEnv)
    (upstream : UpstreamOutcome) (hkey : jsFalsyStr env.apiKey = true) :
    POST sharp env upstream =
      (OcrResponse.err "GRAVIXLAYER_API_KEY environment variable is not set" 500,
        ⟨0, none⟩) :=
  POST_key_missing sharp env upstream hkey

theorem missing_credential_fails_fast_witness :
    POST sharpCrash ⟨none, some fileOk⟩ (respWith (some "hi")) =
      (OcrResponse.err "GRAVIXLAYER_API_KEY environment variable is not set" 500,
        ⟨0, none⟩) :=
  missing_credential_fails_fast sharpCrash ⟨none, some fileOk⟩
    (respWith (some "hi")) rfl

/-- C6: when the credential is configured but no image file is attached,
the handler answers with the no-file error and a 400 status, and the trace
shows no upstream call and no payload sent. -/
theorem missing_file_invalid_input (sharp : SharpModel) (env : RequestEnv)
    (upstream : UpstreamOutcome) (hkey : jsFalsyStr env.apiKey = false)
    (hfile : env.file = none) :
    POST sharp env upstream =
      (OcrResponse.err "No image file provided" 400, ⟨0, none⟩) :=
  POST_no_file sharp env upstream hkey hfile

theorem missing_file_invalid_input_witness :
    POST sharpCrash ⟨some "sk-test", none⟩ (respWith (some "hi")) =
      (OcrResponse.err "No image file provided" 400, ⟨0, none⟩) :=
  missing_file_invalid_input sharpCrash ⟨some "sk-test", none⟩
    (respWith (some "hi")) (by decide) rfl

/-- C9: a single inbound request makes at most one upstream
chat-completion call, whatever the outcome of that call (no failure class
is retried); and a request that passes the credential and file checks
makes exactly one. -/
theorem upstream_attempted_at_most_once (sharp : SharpModel) (env : RequestEnv)
    (upstream : UpstreamOutcome) :
    (POST sharp env upstream).2.calls ≤ 1 ∧
    (jsFalsyStr env.apiKey = false → ∀ f, env.file = some f →
      (POST sharp env upstream).2.calls = 1) := by
  constructor
  · by_cases hkey : jsFalsyStr env.apiKey = true
    · rw [POST_key_missing sharp env upstream hkey]
      exact Nat.zero_le 1
    · have hkey' : jsFalsyStr env.apiKey = false := by
        simpa using hkey
      cases hfile : env.file with
      | none =>
          rw [POST_no_file sharp env upstream hkey' hfile]
          exact Nat.zero_le 1
      | some f =>
          rw [POST_with_file sharp env f upstream hkey' hfile]
  · intro hkey f hf
    rw [POST_with_file sharp env f upstream hkey hf]

theorem upstream_attempted_at_most_once_witness :
    (POST sharpCrash envOk (UpstreamOutcome.apiError (some 429) "Rate limit exceeded")).2.calls
      = 1 :=
  (upstream_attempted_at_most_once sharpCrash envOk
    (UpstreamOutcome.apiError (some 429) "Rate limit exceeded")).2 (by decide) fileOk rfl

/-- C10: the credential check runs before the file check: a request with
neither a configured credential nor an attached file gets the
missing-credential 500 answer, not the no-file 400 answer. -/
theorem credential_check_precedes_file_check (sharp : SharpModel)
    (env : RequestEnv) (upstream : UpstreamOutcome)
    (hkey : jsFalsyStr env.apiKey = true) (hfile : env.file = none) :
    (POST sharp env upstream).1 =
      OcrResponse.err "GRAVIXLAYER_API_KEY environment variable is not set" 500 ∧
    (POST sharp env upstream).1 ≠ OcrResponse.err "No image file provided" 400 := by
  rw [POST_key_missing sharp env upstream hkey]
  exact ⟨rfl, by simp⟩

theorem credential_check_precedes_file_check_witness :
    (POST sharpCrash ⟨none, none⟩ (respWith (some "hi"))).1 =
      OcrResponse.err "GRAVIXLAYER_API_KEY environment variable is not set" 500 ∧
    (POST sharpCrash ⟨none, none⟩ (respWith (some "hi"))).1 ≠
      OcrResponse.err "No image file provided" 400 :=
  credential_check_precedes_file_check sharpCrash ⟨none, none⟩
    (respWith (some "hi")) rfl rfl

/-- C7 counterexample: a request carrying a file that is both over 10 MiB
and of a non-image MIME type is not rejected with a 400: the handler
processes it and makes the upstream call, answering with the extracted
text. -/
theorem oversized_wrong_type_not_rejected :
    POST sharpCrash envOversized (respWith (some "hello")) =
      (OcrResponse.ok "hello", ⟨1, some ("image/png", oversizedPdf.bytes)⟩) := by
  decide

/-- C7 amended: the server-side handler performs no size or MIME-type
validation — any request with a file attached proceeds to the upstream
call whatever the file's declared type and size.  The 10 MiB bound and the
image-type requirement are enforced only in the client page before a
request is sent, the type check accepts every MIME type starting with
image/ (not only png, jpeg and webp), and the client rejection is a local
error message, not an HTTP 400 response. -/
theorem file_validation_client_side_only (sharp : SharpModel)
    (env : RequestEnv) (f : ApiFile) (upstream : UpstreamOutcome)
    (hkey : jsFalsyStr env.apiKey = false) (hf : env.file = some f) :
    (POST sharp env upstream).2.calls = 1 ∧
    (∀ t n, processFile t n = ClientAction.send ↔
      (strBeginsWith t "image/" = true ∧ n ≤ 10 * 1024 * 1024)) := by
  constructor
  · rw [POST_with_file sharp env f upstream hkey hf]
  · intro t n
    unfold processFile
    by_cases hb : strBeginsWith t "image/" = true
    · rw [if_pos hb]
      by_cases hn : n > 10 * 1024 * 1024
      · rw [if_pos hn]
        constructor
        · intro habs
          cases habs
        · rintro ⟨_, hle⟩
          omega
      · rw [if_neg hn]
        constructor
        · intro _
          exact ⟨hb, by omega⟩
        · intro _
          rfl
    · rw [if_neg hb]
      constructor
      · intro habs
        cases habs
      · rintro ⟨hb2, _⟩
        exact absurd hb2 hb

theorem file_validation_client_side_only_witness :
    (POST sharpCrash envOversized (respWith (some "hello"))).2.calls = 1 :=
  (file_validation_client_side_only sharpCrash envOversized oversizedPdf
    (respWith (some "hello")) (by decide) rfl).1

/-- C8 counterexample: on the preprocessing-failure fallback path the
original JPEG bytes are handed to the gateway while the data URL still
declares image/png, so the declared MIME type does not match the actual
encoding of the bytes. -/
theorem fallback_buffer_mislabeled_png :
    (POST sharpCrash envJpeg (respWith (some "hi"))).2.sent =
      some ("image/png", Buffer.mk ImgFormat.jpeg [255, 216, 255]) ∧
    (Buffer.mk ImgFormat.jpeg [255, 216, 255]).format ≠ ImgFormat.png := by
  decide

/-- C8 amended: the data URL handed to the gateway always declares the
MIME type image/png and carries the preprocessor's output for the attached
file; when the preprocessing pipeline succeeds that output is PNG-encoded,
so the label matches, but when preprocessing fails the original bytes are
sent unchanged under the same image/png label, whatever their actual
encoding. -/
theorem data_url_mime_always_png (sharp : SharpModel) (env : RequestEnv)
    (f : ApiFile) (upstream : UpstreamOutcome)
    (hkey : jsFalsyStr env.apiKey = false) (hf : env.file = some f) :
    (POST sharp env upstream).2.sent =
      some ("image/png", processImageForOCR sharp f.bytes) ∧
    (∀ meta out, sharp.metadata f.bytes = Except.ok meta →
      sharp.renderPng f.bytes (resizeDecision meta.width meta.height) =
        Except.ok out →
      (processImageForOCR sharp f.bytes).format = ImgFormat.png) ∧
    (stepFailure sharp f.bytes → processImageForOCR sharp f.bytes = f.bytes) := by
  refine ⟨?_, ?_, processImageForOCR_of_stepFailure sharp f.bytes⟩
  · rw [POST_with_file sharp env f upstream hkey hf]
  · intro meta out hm hr
    rw [processImageForOCR_of_render sharp f.bytes meta out hm hr]
    exact sharp.renderPng_png f.bytes
      (resizeDecision meta.width meta.height) out hr

theorem data_url_mime_always_png_witness :
    (POST (sharpOk 80 60) envOk (respWith (some "hi"))).2.sent =
      some ("image/png", processImageForOCR (sharpOk 80 60) fileOk.bytes) :=
  (data_url_mime_always_png (sharpOk 80 60) envOk fileOk
    (respWith (some "hi")) (by decide) rfl).1

/-- Helper for the upscaling claim: the rounded scaled longer side is
exactly 1000 and the rounded scaled shorter side is at most 1000. -/
theorem jsRound_scaled_longer (a b : Nat) (ha : 0 < a) (hba : b ≤ a) :
    jsRound ((a : ℚ) * (1000 / (a : ℚ))) = 1000 ∧
    jsRound ((b : ℚ) * (1000 / (a : ℚ))) ≤ 1000 := by
  have haq : ((a : ℚ)) ≠ 0 := by
    exact_mod_cast ha.ne'
  have hav : (a : ℚ) * (1000 / (a : ℚ)) = 1000 := by
    field_simp
  have h1000 : jsRound ((1000 : ℚ)) = 1000 := by
    have := jsRound_natCast 1000
    exact_mod_cast this
  constructor
  · rw [hav]
    exact h1000
  · have hle : (b : ℚ) * (1000 / (a : ℚ)) ≤ 1000 := by
      have hbq : (b : ℚ) ≤ (a : ℚ) := by
        exact_mod_cast hba
      have hkpos : (0 : ℚ) ≤ 1000 / (a : ℚ) := by
        positivity
      calc (b : ℚ) * (1000 / (a : ℚ)) ≤ (a : ℚ) * (1000 / (a : ℚ)) :=
            mul_le_mul_of_nonneg_right hbq hkpos
        _ = 1000 := hav
    calc jsRound ((b : ℚ) * (1000 / (a : ℚ))) ≤ jsRound ((1000 : ℚ)) :=
          jsRound_mono hle
      _ = 1000 := h1000

/-- C4: for a decodable image with known nonzero dimensions, when the
longer side is under 1000 the preprocessor requests a resize in which both
sides are scaled by the same factor 1000 / longer-side and rounded, the
longer target side is exactly 1000, and the aspect ratio is preserved up
to the rounding error (the cross products of the old and new dimensions
differ by at most (w + h) / 2); when the longer side is 1000 or more, no
resize is requested. -/
theorem resize_longer_side_to_1000 (w h : Nat) (hw : 0 < w) (hh : 0 < h) :
    (max w h < 1000 →
      ∃ w2 h2, resizeDecision (some w) (some h) = ResizeSpec.to w2 h2 ∧
        max w2 h2 = 1000 ∧
        (w2 : ℤ) = jsRound ((w : ℚ) * (1000 / ((max w h : ℕ) : ℚ))) ∧
        (h2 : ℤ) = jsRound ((h : ℚ) * (1000 / ((max w h : ℕ) : ℚ))) ∧
        |(w2 : ℚ) * (h : ℚ) - (h2 : ℚ) * (w : ℚ)| ≤ ((w : ℚ) + (h : ℚ)) / 2) ∧
    (1000 ≤ max w h → resizeDecision (some w) (some h) = ResizeSpec.none) := by
  have h0 : ¬(w = 0 ∨ h = 0) := by
    omega
  constructor
  · intro hlt
    set qw : ℚ := (w : ℚ) * (1000 / ((max w h : ℕ) : ℚ)) with hqw
    set qh : ℚ := (h : ℚ) * (1000 / ((max w h : ℕ) : ℚ)) with hqh
    have hqwpos : 0 ≤ qw := by
      rw [hqw]
      positivity
    have hqhpos : 0 ≤ qh := by
      rw [hqh]
      positivity
    have hwi : ((jsRound qw).toNat : ℤ) = jsRound qw :=
      Int.toNat_of_nonneg (jsRound_nonneg hqwpos)
    have hhi : ((jsRound qh).toNat : ℤ) = jsRound qh :=
      Int.toNat_of_nonneg (jsRound_nonneg hqhpos)
    refine ⟨(jsRound qw).toNat, (jsRound qh).toNat, ?_, ?_, hwi, hhi, ?_⟩
    · simp only [resizeDecision]
      rw [if_neg h0, if_pos hlt]
    · rcases le_total h w with hhw | hwh
      · have hM : max w h = w := max_eq_left hhw
        have hpair := jsRound_scaled_longer w h hw hhw
        have hw2 : (jsRound qw).toNat = 1000 := by
          rw [hqw, hM, hpair.1]
          decide
        have hh2 : (jsRound qh).toNat ≤ 1000 := by
          rw [hqh, hM]
          exact Int.toNat_le.mpr (by exact_mod_cast hpair.2)
        rw [hw2]
        exact max_eq_left hh2
      · have hM : max w h = h := max_eq_right hwh
        have hpair := jsRound_scaled_longer h w hh hwh
        have hh2 : (jsRound qh).toNat = 1000 := by
          rw [hqh, hM, hpair.1]
          decide
        have hw2 : (jsRound qw).toNat ≤ 1000 := by
          rw [hqw, hM]
          exact Int.toNat_le.mpr (by exact_mod_cast hpair.2)
        rw [hh2]
        exact max_eq_right hw2
    · have hb1 : |(jsRound qw : ℚ) - qw| ≤ 1 / 2 := abs_jsRound_sub_le qw
      have hb2 : |(jsRound qh : ℚ) - qh| ≤ 1 / 2 := abs_jsRound_sub_le qh
      have hcw : (((jsRound qw).toNat : ℚ)) = ((jsRound qw : ℤ) : ℚ) := by
        rw [← hwi]
        norm_cast
      have hch : (((jsRound qh).toNat : ℚ)) = ((jsRound qh : ℤ) : ℚ) := by
        rw [← hhi]
        norm_cast
      have hcross : qw * (h : ℚ) - qh * (w : ℚ) = 0 := by
        rw [hqw, hqh]
        ring
      have hexp : (jsRound qw : ℚ) * (h : ℚ) - (jsRound qh : ℚ) * (w : ℚ) =
          ((jsRound qw : ℚ) - qw) * (h : ℚ) - ((jsRound qh : ℚ) - qh) * (w : ℚ) := by
        linear_combination hcross
      have hwpos : (0 : ℚ) ≤ (w : ℚ) := by
        positivity
      have hhpos : (0 : ℚ) ≤ (h : ℚ) := by
        positivity
      calc |(((jsRound qw).toNat : ℚ)) * (h : ℚ) - (((jsRound qh).toNat : ℚ)) * (w : ℚ)|
          = |((jsRound qw : ℚ) - qw) * (h : ℚ) - ((jsRound qh : ℚ) - qh) * (w : ℚ)| := by
            rw [hcw, hch, hexp]
        _ ≤ |((jsRound qw : ℚ) - qw) * (h : ℚ)| + |((jsRound qh : ℚ) - qh) * (w : ℚ)| := by
            calc |((jsRound qw : ℚ) - qw) * (h : ℚ) - ((jsRound qh : ℚ) - qh) * (w : ℚ)|
                = |((jsRound qw : ℚ) - qw) * (h : ℚ) + -(((jsRound qh : ℚ) - qh) * (w : ℚ))| := by
                  rw [sub_eq_add_neg]
              _ ≤ |((jsRound qw : ℚ) - qw) * (h : ℚ)| + |-(((jsRound qh : ℚ) - qh) * (w : ℚ))| :=
                  abs_add _ _
              _ = |((jsRound qw : ℚ) - qw) * (h : ℚ)| + |((jsRound qh : ℚ) - qh) * (w : ℚ)| := by
                  rw [abs_neg]
        _ = |(jsRound qw : ℚ) - qw| * (h : ℚ) + |(jsRound qh : ℚ) - qh| * (w : ℚ) := by
            rw [abs_mul, abs_mul, abs_of_nonneg hhpos, abs_of_nonneg hwpos]
        _ ≤ (1 / 2) * (h : ℚ) + (1 / 2) * (w : ℚ) := by
            have t1 := mul_le_mul_of_nonneg_right hb1 hhpos
            have t2 := mul_le_mul_of_nonneg_right hb2 hwpos
            linarith
        _ = ((w : ℚ) + (h : ℚ)) / 2 := by
            ring
  · intro hge
    simp only [resizeDecision]
    rw [if_neg h0, if_neg (Nat.not_lt.mpr hge)]

theorem resize_longer_side_to_1000_witness :
    (max 800 600 < 1000 →
      ∃ w2 h2, resizeDecision (some 800) (some 600) = ResizeSpec.to w2 h2 ∧
        max w2 h2 = 1000 ∧
        (w2 : ℤ) = jsRound (((800 : ℕ) : ℚ) * (1000 / ((max 800 600 : ℕ) : ℚ))) ∧
        (h2 : ℤ) = jsRound (((600 : ℕ) : ℚ) * (1000 / ((max 800 600 : ℕ) : ℚ))) ∧
        |((w2 : ℕ) : ℚ) * ((600 : ℕ) : ℚ) - ((h2 : ℕ) : ℚ) * ((800 : ℕ) : ℚ)| ≤
          (((800 : ℕ) : ℚ) + ((600 : ℕ) : ℚ)) / 2) ∧
    (1000 ≤ max 800 600 → resizeDecision (some 800) (some 600) = ResizeSpec.none) :=
  resize_longer_side_to_1000 800 600 (by decide) (by decide)

end GravixOcr
